import Mathlib

/-!
Verification of the vangogh van-monitor firmware (src/main.py) against its
natural-language specification.

The Python source is shallowly embedded:
* strings are `List Char` (lines arrive already decoded and stripped; a line
  whose bytes fail ASCII decoding is a separate input event),
* Python `float(...)` on the decimal NMEA fields is an exact `Option ℚ`
  decimal parser (`pyFloat`), `None` modelling the `ValueError` raise,
* Python exceptions are `Except String`, `try/except` is an explicit match,
* MicroPython `time.ticks_ms`/`time.ticks_diff` are modelled over `ℤ` with
  the documented 2^30 tick period and signed wraparound difference,
* the trigonometric haversine distance (`calculate_distance_feet`) is
  idealised over `ℝ` with `Real.sin`/`Real.cos`/`Real.sqrt` and a
  mathematical `atan2`,
* hardware / network / filesystem collaborators are records of
  `Except String`-valued operations, quantified over in the theorems.
-/

deriving instance DecidableEq for Except

/-! ## List and string helpers (Python `str.split`, prefix tests, digits) -/

/-- Python `s.split(sep)` on character lists: `"".split(',') = [""]`,
separators at the ends produce empty fields. -/
def splitOnChar (sep : Char) : List Char → List (List Char)
  | [] => [[]]
  | c :: rest =>
    match splitOnChar sep rest with
    | [] => [[c]]
    | g :: gs => if c = sep then [] :: g :: gs else (c :: g) :: gs

/-- Python `s.startswith(p)` on character lists. -/
def leadsWith : List Char → List Char → Bool
  | [], _ => true
  | _ :: _, [] => false
  | a :: as_, b :: bs => a = b && leadsWith as_ bs

/-- Python `p in s` (substring containment) on character lists. -/
def containsSeq (pat : List Char) : List Char → Bool
  | [] => leadsWith pat []
  | c :: rest => leadsWith pat (c :: rest) || containsSeq pat rest

/-- Accumulate a decimal digit string; `none` when a non-digit appears
(the `ValueError` path of Python `int`/`float`). Empty input gives `some 0`. -/
def digitsAux (acc : ℕ) : List Char → Option ℕ
  | [] => some acc
  | c :: r => if c.isDigit then digitsAux (acc * 10 + (c.toNat - 48)) r else none

/-- Value of an all-digit string, `none` if any character is not a digit. -/
def digitsToNat? (l : List Char) : Option ℕ :=
  digitsAux 0 l

/-- Strip an optional leading sign, returning (isNegative, rest). -/
def parseSign : List Char → Bool × List Char
  | '+' :: r => (false, r)
  | '-' :: r => (true, r)
  | r => (false, r)

/-- Apply a Python-style sign flag to a rational value. -/
def pySign (neg : Bool) (q : ℚ) : ℚ :=
  if neg then -q else q

/-- Exact value of a parsed decimal literal: sign, integer part `i`,
fraction digits with value `f` and length `k`. -/
def decValue (neg : Bool) (i f k : ℕ) : ℚ :=
  pySign neg (((i * 10 ^ k + f : ℕ) : ℚ) / (10 : ℚ) ^ k)

/-- Python `float(s)` restricted to the decimal literals that occur in NMEA
fields: optional sign, digits, optional single dot, digits. `none` models the
`ValueError` raise.  The exact rational value is returned, where MicroPython
`float()` rounds to a binary float; the rounding error is far below every
digit the claims compare, but it makes the exact 1.0 km/h clamp boundary
reachable in the program while it is not in exact arithmetic — see the
claim C7 counterexample. -/
def pyFloat (cs : List Char) : Option ℚ :=
  let sc := parseSign cs
  let body := sc.2
  let ip := body.takeWhile (fun c => c ≠ '.')
  let rest := body.dropWhile (fun c => c ≠ '.')
  match rest with
  | [] =>
    if ip = [] then none
    else (digitsToNat? ip).map (fun n => decValue sc.1 n 0 0)
  | _ :: frac =>
    if ip = [] ∧ frac = [] then none
    else
      match digitsToNat? ip with
      | none => none
      | some i =>
        match digitsToNat? frac with
        | none => none
        | some f => some (decValue sc.1 i f frac.length)

/-! ## MicroPython monotonic ticks (src/main.py uses `time.ticks_ms` /
`time.ticks_diff` for every elapsed-time comparison: lines 278, 450, 493,
695, 713, 749).  Per the MicroPython documentation the counter wraps at
`TICKS_PERIOD = 2^30` and `ticks_diff(a, b)` is the signed value of
`(a - b) mod TICKS_PERIOD`, i.e. `((a - b + 2^29) mod 2^30) - 2^29`. -/

def TICKS_PERIOD : ℤ := 1073741824

/-- A tick counter value: the modular wrap of an idealised unbounded time. -/
def ticks_wrap (t : ℤ) : ℤ :=
  t % TICKS_PERIOD

/-- MicroPython `time.ticks_diff(a, b)`: signed wraparound difference. -/
def ticks_diff (a b : ℤ) : ℤ :=
  (a - b + TICKS_PERIOD / 2) % TICKS_PERIOD - TICKS_PERIOD / 2

/-! ## GPS data model (the `gps_data` dict of `read_gps`, src/main.py:273) -/

/-- The `gps_data` dictionary built by `read_gps`.  Optional fields model
keys that are only present after a successful RMC update. -/
structure GpsData where
  gps_fix_valid : Bool
  satellites : ℕ
  latitude : Option ℚ
  longitude : Option ℚ
  speed : Option ℚ
  time : Option String
  error : Option String
deriving DecidableEq, Repr

/-- Initial `gps_data = {"gps_fix_valid": False, "satellites": 0}`. -/
def initGpsData : GpsData :=
  ⟨false, 0, none, none, none, none, none⟩

/-- The fix returned by the outer `except` of `read_gps` on a hardware
read error (src/main.py:366). -/
def errorFix (e : String) : GpsData :=
  ⟨false, 0, none, none, none, none, some e⟩

/-! ## NMEA line parsing (src/main.py:288-345) -/

/-- Outcome of parsing one `$`-sentence: no contribution, an RMC fix
update, or a GGA satellite count. -/
inductive LineResult where
  | nothing
  | rmcFix (lat lon speed : ℚ) (timeStr : String)
  | ggaSats (n : ℕ)
deriving DecidableEq, Repr

/-- Lift the `ValueError` of Python `float` into the exception monad. -/
def ofOpt (o : Option ℚ) : Except String ℚ :=
  match o with
  | some q => Except.ok q
  | none => Except.error "ValueError"

/-- The knots-to-speed computation of the RMC branch (src/main.py:314-316):
km/h is knots `* 1.852`, and `speed = speed_kmh if speed_kmh > 1.0 else 0.0`
— the value is kept only strictly above 1.0 km/h, so a conversion landing
on exactly 1.0 is clamped to 0.0.  The multiplication and comparison are
exact here where the program multiplies rounded floats; exactly 1.0 is
reachable in the program through rounding of parseable fields. -/
def speed_of_knots (knots : ℚ) : ℚ :=
  if knots * (1852 / 1000) > 1 then knots * (1852 / 1000) else 0

/-- Speed handling of the RMC branch (src/main.py:312-316): default 0.0 for
an empty field, a raising `float` parse otherwise, then `speed_of_knots`. -/
def convert_speed (cs : List Char) : Except String ℚ :=
  if cs = [] then Except.ok 0
  else
    match pyFloat cs with
    | none => Except.error "ValueError"
    | some knots => Except.ok (speed_of_knots knots)

/-- Time reformatting (src/main.py:319-321): `HHMMSS` to `HH:MM:SS`, with
the placeholder on short fields. -/
def formatTime (t : List Char) : String :=
  if t ≠ [] ∧ t.length ≥ 6 then
    String.mk (t.take 2 ++ ':' :: ((t.drop 2).take 2 ++ ':' :: (t.drop 4).take 2))
  else "??:??:??"

/-- The RMC branch (src/main.py:289-330).  Requires at least 13
comma-separated fields, status `A`, non-empty coordinate fields of minimum
length; any `float` failure raises (to be caught by the per-line
`except`). -/
def rmcParse (parts : List (List Char)) : Except String LineResult :=
  if parts.length ≥ 13 then
    let time_str := parts.getD 1 []
    let status := parts.getD 2 []
    let lat_str := parts.getD 3 []
    let lat_dir := parts.getD 4 []
    let lon_str := parts.getD 5 []
    let lon_dir := parts.getD 6 []
    let speed_str := parts.getD 7 []
    if status = ['A'] ∧ lat_str ≠ [] ∧ lon_str ≠ [] then
      if lat_str.length ≥ 4 ∧ lon_str.length ≥ 5 then do
        let latDeg ← ofOpt (pyFloat (lat_str.take 2))
        let latMin ← ofOpt (pyFloat (lat_str.drop 2))
        let lat0 := latDeg + latMin / 60
        let lat := if lat_dir = ['S'] then -lat0 else lat0
        let lonDeg ← ofOpt (pyFloat (lon_str.take 3))
        let lonMin ← ofOpt (pyFloat (lon_str.drop 3))
        let lon0 := lonDeg + lonMin / 60
        let lon := if lon_dir = ['W'] then -lon0 else lon0
        let speed ← convert_speed speed_str
        Except.ok (LineResult.rmcFix lat lon speed (formatTime time_str))
      else Except.ok LineResult.nothing
    else Except.ok LineResult.nothing
  else Except.ok LineResult.nothing

/-- The GGA branch (src/main.py:335-345): the satellite field is accepted
only when non-empty and all digits. -/
def ggaParse (parts : List (List Char)) : Except String LineResult :=
  if parts.length ≥ 8 then
    let sats := parts.getD 7 []
    if sats ≠ [] ∧ sats.all Char.isDigit then
      Except.ok (LineResult.ggaSats ((digitsToNat? sats).getD 0))
    else Except.ok LineResult.nothing
  else Except.ok LineResult.nothing

/-- Dispatch on the sentence identifier (src/main.py:288, 335). -/
def lineParse (s : List Char) : Except String LineResult :=
  if leadsWith "$GPRMC".data s ∨ leadsWith "$GNRMC".data s then
    rmcParse (splitOnChar ',' s)
  else if leadsWith "$GPGGA".data s ∨ leadsWith "$GNGGA".data s then
    ggaParse (splitOnChar ',' s)
  else Except.ok LineResult.nothing

/-! ## The `read_gps` loop (src/main.py:269-366) -/

/-- One event of the UART stream inside the read window: a decoded line, a
line whose bytes fail ASCII decoding, no line ready (the `sleep(0.01)`
branch), or the transport raising on `readline()`. -/
inductive UartEvent where
  | line (s : List Char)
  | undecodable
  | noLine
  | hwError (e : String)
deriving DecidableEq, Repr

/-- Loop state: the accumulated dict and the `gprmc_found` / `gpgga_found`
flags. -/
structure RState where
  data : GpsData
  rmcFound : Bool
  ggaFound : Bool
deriving DecidableEq, Repr

/-- Apply a parsed line to the accumulated state.  An RMC fix performs the
atomic `gps_data.update` of src/main.py:323-329 (satellites and error key
preserved); a GGA result only sets the satellite count. -/
def applyLine (st : RState) (r : LineResult) : RState :=
  match r with
  | LineResult.nothing => st
  | LineResult.rmcFix lat lon speed t =>
    ⟨⟨true, st.data.satellites, some lat, some lon, some speed, some t,
      st.data.error⟩, true, st.ggaFound⟩
  | LineResult.ggaSats n =>
    ⟨⟨st.data.gps_fix_valid, n, st.data.latitude, st.data.longitude,
      st.data.speed, st.data.time, st.data.error⟩, st.rmcFound, true⟩

/-- Python `line_str.startswith('$')`. -/
def startsDollar : List Char → Bool
  | '$' :: _ => true
  | _ => false

/-- The `while ticks_diff(...) < timeout` loop of `read_gps`: the event
list is the stream of `readline()` results that arrive before the timeout
(list exhaustion models the window closing).  A per-line parse exception is
caught by the bare `except: continue` (src/main.py:351-352, the inner
`(ValueError, IndexError)` handlers behave identically); the loop returns
early once both sentence kinds have been seen (src/main.py:348-349); a
transport exception propagates out of the loop. -/
def readGpsLoop (st : RState) : List UartEvent → Except String GpsData
  | [] => Except.ok st.data
  | ev :: rest =>
    match ev with
    | UartEvent.noLine => readGpsLoop st rest
    | UartEvent.undecodable => readGpsLoop st rest
    | UartEvent.hwError e => Except.error e
    | UartEvent.line s =>
      if startsDollar s then
        match lineParse s with
        | Except.error _ => readGpsLoop st rest
        | Except.ok r =>
          let st' := applyLine st r
          if st'.rmcFound && st'.ggaFound then Except.ok st'.data
          else readGpsLoop st' rest
      else readGpsLoop st rest

/-- Python `try/except` over the exception monad. -/
def tryE (ma : Except String GpsData) (handle : String → Except String GpsData) :
    Except String GpsData :=
  match ma with
  | Except.ok a => Except.ok a
  | Except.error e => handle e

/-- `read_gps` (src/main.py:269-366): run the window loop under the outer
`try`, converting any escaping exception into the diagnostic fix. -/
def read_gps (evs : List UartEvent) : Except String GpsData :=
  tryE (readGpsLoop ⟨initGpsData, false, false⟩ evs) (fun e => Except.ok (errorFix e))

/-! ## Geo proximity (src/main.py:103-125), idealised over `ℝ` -/

/-- Python `math.radians`. -/
noncomputable def radians (x : ℝ) : ℝ :=
  x * Real.pi / 180

/-- Python `math.atan2(y, x)`. -/
noncomputable def atan2 (y x : ℝ) : ℝ :=
  if 0 < x then Real.arctan (y / x)
  else if x < 0 then
    if 0 ≤ y then Real.arctan (y / x) + Real.pi else Real.arctan (y / x) - Real.pi
  else
    if 0 < y then Real.pi / 2 else if y < 0 then -(Real.pi / 2) else 0

/-- `calculate_distance_feet` (src/main.py:103-114): haversine on a
3959-mile sphere, converted to feet. -/
noncomputable def calculate_distance_feet (lat1 lon1 lat2 lon2 : ℝ) : ℝ :=
  let R : ℝ := 3959
  let dlat := radians (lat2 - lat1)
  let dlon := radians (lon2 - lon1)
  let a := Real.sin (dlat / 2) * Real.sin (dlat / 2) +
    Real.cos (radians lat1) * Real.cos (radians lat2) *
    Real.sin (dlon / 2) * Real.sin (dlon / 2)
  let c := 2 * atan2 (Real.sqrt a) (Real.sqrt (1 - a))
  R * c * 5280

/-- Python truthiness of `gps_data.get(key)` for a numeric field: falsy
when the key is absent or the value is exactly 0.0. -/
def qTruthy : Option ℚ → Bool
  | none => false
  | some q => decide (q ≠ 0)

/-- The configured home radius (src/main.py:38). -/
def HOME_RADIUS_FT : ℝ := 2000

/-- `is_close_to_home` (src/main.py:116-125).  The home coordinates come
from `local_secrets` (not in src/, with fallback constants); they are
parameters here, as in the spec's signature. -/
def is_close_to_home (g : GpsData) (homeLat homeLon radius : ℝ) : Prop :=
  if g.gps_fix_valid && qTruthy g.latitude && qTruthy g.longitude then
    calculate_distance_feet ((g.latitude.getD 0 : ℚ) : ℝ)
      ((g.longitude.getD 0 : ℚ) : ℝ) homeLat homeLon ≤ radius
  else False

/-! ## Power state machine (src/main.py:700-717, inside `update_sensors`) -/

def SHUTDOWN_DELAY : ℤ := 30000

/-- One sensor tick of the engine-power tracking: inputs are the previous
`sensor_data["engine"]`, the current `engine_off_time`, the fresh
`engine_is_on()` sample and `current_time`; outputs are the new engine
flag, the new `engine_off_time` and whether `handle_shutdown_sequence` was
invoked.  The `elif engine_off_time and ...` guard keeps Python truthiness:
a timer value of exactly 0 is falsy. -/
def power_step (prevEngine : Bool) (engineOffTime : Option ℤ) (sample : Bool)
    (now : ℤ) : Bool × Option ℤ × Bool :=
  if sample then (true, none, false)
  else if prevEngine then (false, some now, false)
  else
    match engineOffTime with
    | some t =>
      if t ≠ 0 ∧ ticks_diff now t > SHUTDOWN_DELAY then (false, some t, true)
      else (false, some t, false)
    | none => (false, none, false)

/-- A run of sensor ticks, counting shutdown triggers.  When the shutdown
fires, `update_sensors` returns and `handle_shutdown_sequence` ends in
`deepsleep`, so the loop stops (src/main.py:716-717, 606). -/
def run_power (prevEngine : Bool) (engineOffTime : Option ℤ) :
    List (Bool × ℤ) → ℕ
  | [] => 0
  | (s, now) :: rest =>
    let r := power_step prevEngine engineOffTime s now
    if r.2.2 then 1 else run_power r.1 r.2.1 rest

/-! ## Network and shutdown sequence (src/main.py:539-682) -/

/-- Network / FTP collaborator operations; each may raise.  `isconnected`,
`recv` and `send` are indexed by call number. -/
structure NetEnv where
  wlanActive : Except String Unit
  isconnected : ℕ → Except String Bool
  staConnect : Except String Unit
  sockConnect : Except String Unit
  recv : ℕ → Except String (List Char)
  send : ℕ → Except String Unit
  sockClose : Except String Unit
  listdir : Except String (List String)

/-- The `while timeout > 0` association loop of `check_wifi`
(src/main.py:673-679): falls through to `False` after the budget. -/
def check_wifi_loop (env : NetEnv) : ℕ → ℕ → Except String Bool
  | 0, _ => Except.ok false
  | k + 1, i => do
    let c ← env.isconnected i
    if c then pure true else check_wifi_loop env k (i + 1)

/-- Body of the `try` in `check_wifi` (src/main.py:663-679). -/
def check_wifi_body (env : NetEnv) : Except String Bool := do
  let _ ← env.wlanActive
  let c0 ← env.isconnected 0
  if c0 then pure true
  else do
    let _ ← env.staConnect
    check_wifi_loop env 10 1

/-- `check_wifi` (src/main.py:661-682): any exception falls to the bare
`except: pass` and the trailing `return False`. -/
def check_wifi (env : NetEnv) : Bool :=
  match check_wifi_body env with
  | Except.ok b => b
  | Except.error _ => false

/-- Body of the `try` in `upload_files_ftp` (src/main.py:541-581): the
USER/PASS/CWD command sequence, login success detected by `"230"` in the
PASS reply, the file listing guarded by its own inner `except`, and a
final `return True` regardless of login outcome. -/
def upload_files_ftp_body (env : NetEnv) : Except String Bool := do
  let _ ← env.sockConnect
  let _ ← env.recv 0
  let _ ← env.send 0
  let _ ← env.recv 1
  let _ ← env.send 1
  let r2 ← env.recv 2
  if containsSeq "230".data r2 then do
    let _ ← env.send 2
    let _ ← env.recv 3
    match env.listdir with
    | Except.ok _ => pure ()
    | Except.error _ => pure ()
  else pure ()
  let _ ← env.sockClose
  pure true

/-- `upload_files_ftp` (src/main.py:539-585): exceptions are caught and
downgraded to `False`. -/
def upload_files_ftp (env : NetEnv) : Bool :=
  match upload_files_ftp_body env with
  | Except.ok b => b
  | Except.error _ => false

/-- `enter_deep_sleep` (src/main.py:591-606): renders the sleep screen and
calls `deepsleep`.  The rendered strings are appended to the display
trace; the `Except.ok` marks normal hand-off. -/
def enter_deep_sleep (msgs : List String) : Except String (List String) :=
  Except.ok (msgs ++ ["DEEP SLEEP", "ENGINE OFF"])

open Classical in
/-- `handle_shutdown_sequence` (src/main.py:608-655): proximity-gated
Wi-Fi association and upload, then unconditionally `enter_deep_sleep`.
The display collaborator is modelled as the returned message trace (the
spec places raster drawing out of scope); network behaviour is the
arbitrary `env`. -/
noncomputable def handle_shutdown_sequence (g : GpsData)
    (homeLat homeLon radius : ℝ) (env : NetEnv) : Except String (List String) :=
  let msgs := ["SHUTTING DOWN", "Checking WiFi..."]
  if g.gps_fix_valid = true ∧ is_close_to_home g homeLat homeLon radius then
    if check_wifi env then
      if upload_files_ftp env then
        enter_deep_sleep (msgs ++ ["Uploading data...", "Upload complete"])
      else
        enter_deep_sleep (msgs ++ ["Uploading data...", "Upload failed"])
    else enter_deep_sleep (msgs ++ ["Uploading data...", "No WiFi"])
  else enter_deep_sleep (msgs ++ ["Away from home"])

/-! ## SD card and logging (src/main.py:410-537, 777-800) -/

def LOG_INTERVAL : ℤ := 60000

/-- Filesystem operations attempted by one `log_sensor_data` call. -/
inductive FsOp where
  | openReadAttempt
  | openWriteAttempt
  | cleanupCheck
deriving DecidableEq, Repr

/-- Filesystem collaborator: reading the existing daily array and
rewriting it (entries abstracted to `Unit`). -/
structure FsEnv where
  readLogs : Except String (List Unit)
  writeLogs : List Unit → Except String Unit

/-- Result of one `log_sensor_data` call: the new `last_log_time`, the
file operations attempted, a swallowed error message, and whether an entry
was actually written. -/
structure LogResult where
  lastLog : ℤ
  trace : List FsOp
  errMsg : Option String
  wrote : Bool
deriving DecidableEq, Repr

/-- `log_sensor_data` (src/main.py:488-537): gated by `LOG_INTERVAL`; the
read of the existing array has its own `except` defaulting to `[]`; a
write failure is caught by the outer `except` (only a print), leaving
`last_log_time` unchanged; `cleanup_old_logs` runs only after a successful
write.  Note the function never consults `sd_available`. -/
def log_sensor_data (fs : FsEnv) (now lastLogTime : ℤ) : LogResult :=
  if ticks_diff now lastLogTime < LOG_INTERVAL then ⟨lastLogTime, [], none, false⟩
  else
    let logs := match fs.readLogs with
      | Except.ok l => l
      | Except.error _ => []
    match fs.writeLogs (logs ++ [()]) with
    | Except.ok _ => ⟨now, [FsOp.openReadAttempt, FsOp.openWriteAttempt,
        FsOp.cleanupCheck], none, true⟩
    | Except.error e => ⟨lastLogTime, [FsOp.openReadAttempt,
        FsOp.openWriteAttempt], some e, false⟩

/-- SD collaborator for `init_sd_card`: mounting, the write test and its
removal. -/
structure SdEnv where
  mount : Except String Unit
  writeTest : Except String Unit
  removeTest : Except String Unit

/-- `init_sd_card` (src/main.py:410-434): any failure is caught and
reported as `False`. -/
def init_sd_card (env : SdEnv) : Bool :=
  match env.mount with
  | Except.error _ => false
  | Except.ok _ =>
    match env.writeTest with
    | Except.error _ => false
    | Except.ok _ =>
      match env.removeTest with
      | Except.error _ => false
      | Except.ok _ => true

/-- The startup portion of `main` (src/main.py:777-800): display init is
caught to a boolean and startup continues; `init_sd_card` failure only
selects the "logging disabled" print; no exception escapes. -/
def main_startup (displayInit : Except String Unit) (sd : SdEnv) :
    Except String Bool :=
  let _dispOk := match displayInit with
    | Except.ok _ => true
    | Except.error _ => false
  Except.ok (init_sd_card sd)

/-! ## Helper lemmas -/

lemma qTruthy_some_zero : qTruthy (some 0) = false := by decide

lemma calculate_distance_feet_self (lat lon : ℝ) :
    calculate_distance_feet lat lon lat lon = 0 := by
  norm_num [calculate_distance_feet, radians, atan2, Real.sin_zero,
    Real.sqrt_zero, Real.sqrt_one, Real.arctan_zero]

lemma calculate_distance_feet_symm (lat1 lon1 lat2 lon2 : ℝ) :
    calculate_distance_feet lat1 lon1 lat2 lon2 =
      calculate_distance_feet lat2 lon2 lat1 lon1 := by
  have hA : Real.sin (radians (lat2 - lat1) / 2) * Real.sin (radians (lat2 - lat1) / 2) +
      Real.cos (radians lat1) * Real.cos (radians lat2) *
      Real.sin (radians (lon2 - lon1) / 2) * Real.sin (radians (lon2 - lon1) / 2)
      = Real.sin (radians (lat1 - lat2) / 2) * Real.sin (radians (lat1 - lat2) / 2) +
      Real.cos (radians lat2) * Real.cos (radians lat1) *
      Real.sin (radians (lon1 - lon2) / 2) * Real.sin (radians (lon1 - lon2) / 2) := by
    have h1 : radians (lat2 - lat1) / 2 = -(radians (lat1 - lat2) / 2) := by
      simp only [radians]; ring
    have h2 : radians (lon2 - lon1) / 2 = -(radians (lon1 - lon2) / 2) := by
      simp only [radians]; ring
    rw [h1, h2]
    simp only [Real.sin_neg]
    ring
  simp only [calculate_distance_feet]
  rw [hA]

/-! ## Claim C5: wraparound-safe elapsed time -/

/-- Claim C5 (amended): over the program's tick function (MicroPython
`ticks_diff`, modulus `W = TICKS_PERIOD = 2^30`), every elapsed time `d`
below half the modulus — in particular every threshold the program
compares (3 s, 5 s, 30 s, 60 s, 24 h) — is recovered exactly through the
wrap: `diff(wrap(t0 + d), t0) = d` for every `t0`; for `d = W - 1` the
signed difference is `-1` (the signed value of `W - 1` over the modulus),
not `W - 1` as the claim states. -/
theorem claim_C5_amended : ∀ t0 d : ℤ, 0 ≤ t0 → t0 < TICKS_PERIOD → 0 ≤ d →
    2 * d < TICKS_PERIOD →
    ticks_diff (ticks_wrap (t0 + d)) t0 = d ∧
    ticks_diff (ticks_wrap (t0 + (TICKS_PERIOD - 1))) t0 = -1 := by
  intro t0 d h1 h2 h3 h4
  simp only [ticks_diff, ticks_wrap, TICKS_PERIOD] at *
  constructor <;> omega

/-- Claim C5 counterexample: at `t0 = 0` with the counter modulus
`W = TICKS_PERIOD`, `diff(wrap(t0 + W - 1), t0)` is `-1`, not `W - 1`:
`ticks_diff` is a signed value in `[-W/2, W/2)`. -/
theorem claim_C5_counterexample :
    ticks_diff (ticks_wrap (0 + (TICKS_PERIOD - 1))) 0 = -1 ∧
    (-1 : ℤ) ≠ TICKS_PERIOD - 1 := by decide

/-- Claim C5 witness: a wrapping instance, `t0 = 2^30 - 1`, `d = 30001`
(just past the shutdown threshold). -/
theorem claim_C5_witness :
    ticks_diff (ticks_wrap (1073741823 + 30001)) 1073741823 = 30001 ∧
    ticks_diff (ticks_wrap (1073741823 + (TICKS_PERIOD - 1))) 1073741823 = -1 :=
  claim_C5_amended 1073741823 30001 (by decide) (by decide) (by decide) (by decide)

/-! ## Claim C2: power state machine transitions -/

/-- Claim C2 (amended): per sensor tick with a fresh sample — from
`EngineOn` (engine flag true, no timer) a false sample at `t0` yields
`EngineOffTimer(t0)`; from `EngineOffTimer(t0)` a true sample before the
threshold restores `EngineOn` with the timer discarded; from
`EngineOffTimer(t0)` with `t0 ≠ 0` a false sample with
`diff(now, t0) > SHUTDOWN_DELAY` triggers the shutdown transition; and a
run of ticks triggers the shutdown at most once (the sequence ends in
`deepsleep`).  The amendment `t0 ≠ 0` is forced: the code guards the
check with the truthiness of `engine_off_time`, and the tick value 0 is
falsy. -/
theorem claim_C2_amended : ∀ (t0 now : ℤ) (samples : List (Bool × ℤ)),
    power_step true none false t0 = (false, some t0, false) ∧
    (ticks_diff now t0 ≤ SHUTDOWN_DELAY →
      power_step false (some t0) true now = (true, none, false)) ∧
    (t0 ≠ 0 → ticks_diff now t0 > SHUTDOWN_DELAY →
      power_step false (some t0) false now = (false, some t0, true)) ∧
    (∀ e tm, run_power e tm samples ≤ 1) := by
  intro t0 now samples
  refine ⟨rfl, fun _ => rfl, fun h1 h2 => ?_, ?_⟩
  · simp [power_step, h1, h2]
  · intro e tm
    induction samples generalizing e tm with
    | nil => simp [run_power]
    | cons p rest ih =>
      obtain ⟨s, nw⟩ := p
      simp only [run_power]
      split
      · exact Nat.le_refl 1
      · exact ih _ _

/-- Claim C2 counterexample: the timer value 0 is reachable (a false
sample at tick 0), and from `EngineOffTimer(0)` a false sample 40 s later
— well past the 30 s threshold — does not trigger the shutdown: the
state is unchanged and no transition to `ShuttingDown` occurs, because
`elif engine_off_time and ...` treats the integer 0 as falsy
(src/main.py:713). -/
theorem claim_C2_counterexample :
    power_step true none false 0 = (false, some 0, false) ∧
    ticks_diff 40000 0 > SHUTDOWN_DELAY ∧
    power_step false (some 0) false 40000 = (false, some 0, false) := by decide

/-- Claim C2 witness: the three transitions at timer value 100 and a
two-tick run triggering shutdown exactly once. -/
theorem claim_C2_witness :
    power_step true none false 100 = (false, some 100, false) ∧
    power_step false (some 100) true 5100 = (true, none, false) ∧
    power_step false (some 100) false 40000 = (false, some 100, true) ∧
    run_power true none [(false, 100), (false, 40000)] ≤ 1 :=
  ⟨(claim_C2_amended 100 5100 []).1,
   (claim_C2_amended 100 5100 []).2.1 (by decide),
   (claim_C2_amended 100 40000 []).2.2.1 (by decide) (by decide),
   (claim_C2_amended 100 40000 [(false, 100), (false, 40000)]).2.2.2 true none⟩

/-! ## Claim C8: distance symmetry and self-distance -/

/-- Claim C8: `calculate_distance_feet` is symmetric in its two coordinate
pairs, and the distance from any point to itself is 0 (over the
real-valued idealisation of the floating-point haversine). -/
theorem claim_C8 :
    (∀ lat1 lon1 lat2 lon2 : ℝ, calculate_distance_feet lat1 lon1 lat2 lon2 =
      calculate_distance_feet lat2 lon2 lat1 lon1) ∧
    (∀ lat lon : ℝ, calculate_distance_feet lat lon lat lon = 0) :=
  ⟨calculate_distance_feet_symm, calculate_distance_feet_self⟩

/-! ## Claim C10: zero coordinates are falsy -/

/-- Claim C10: for every fix with `gps_fix_valid = true`, if the latitude
or the longitude is exactly 0 the proximity test returns false regardless
of every other field: the position fields are tested for Python
truthiness, and 0.0 is falsy. -/
theorem claim_C10 : ∀ (g : GpsData) (homeLat homeLon radius : ℝ),
    g.gps_fix_valid = true → (g.latitude = some 0 ∨ g.longitude = some 0) →
    ¬ is_close_to_home g homeLat homeLon radius := by
  intro g hl ho r _hv hz
  rcases hz with h | h <;>
    simp [is_close_to_home, qTruthy, h, qTruthy_some_zero]

/-- Claim C10 witness: a valid fix on the prime meridian with arbitrary
other fields is reported as not close to home. -/
theorem claim_C10_witness :
    ¬ is_close_to_home ⟨true, 7, some 0, some 1, none, none, none⟩ 40 75 2000 :=
  claim_C10 ⟨true, 7, some 0, some 1, none, none, none⟩ 40 75 2000 rfl (Or.inl rfl)

/-! ## Claim C6: proximity test contract -/

/-- Claim C6 (amended): `is_close_to_home` returns false whenever the
valid flag is false, a position field is absent, or — the amendment —
a position field equals exactly 0 (falsy); for a valid fix with both
coordinates present and nonzero it returns exactly the comparison
`distance_feet(fix, home) ≤ radius`. -/
theorem claim_C6_amended : ∀ (g : GpsData) (homeLat homeLon radius : ℝ),
    ((g.gps_fix_valid = false ∨ g.latitude = none ∨ g.longitude = none ∨
      g.latitude = some 0 ∨ g.longitude = some 0) →
      ¬ is_close_to_home g homeLat homeLon radius) ∧
    (∀ a b : ℚ, g.gps_fix_valid = true → g.latitude = some a →
      g.longitude = some b → a ≠ 0 → b ≠ 0 →
      (is_close_to_home g homeLat homeLon radius ↔
        calculate_distance_feet (a : ℝ) (b : ℝ) homeLat homeLon ≤ radius)) := by
  intro g hl ho r
  constructor
  · intro h
    rcases h with h | h | h | h | h <;>
      simp [is_close_to_home, qTruthy, h, qTruthy_some_zero]
  · intro a b hv ha hb hna hnb
    simp [is_close_to_home, qTruthy, hv, ha, hb, hna, hnb]

/-- Claim C6 counterexample: with home at `(0, 0)` and a valid fix whose
position fields are present and equal to 0 (distance exactly 0, well
within the radius), the code returns false while the claimed contract
("otherwise return `distance_feet ≤ radius`") demands true — the
equivalence fails. -/
theorem claim_C6_counterexample :
    ¬ (is_close_to_home ⟨true, 0, some 0, some 0, none, none, none⟩ 0 0 2000 ↔
      calculate_distance_feet ((0 : ℚ) : ℝ) ((0 : ℚ) : ℝ) 0 0 ≤ 2000) := by
  intro hiff
  have h2 : calculate_distance_feet ((0 : ℚ) : ℝ) ((0 : ℚ) : ℝ) 0 0 ≤ 2000 := by
    rw [Rat.cast_zero, calculate_distance_feet_self]
    norm_num
  have h1 := hiff.mpr h2
  simp [is_close_to_home, qTruthy_some_zero] at h1

/-- Claim C6 witness: a valid nonzero fix, where the test is exactly the
distance comparison. -/
theorem claim_C6_witness :
    is_close_to_home ⟨true, 0, some 1, some 1, none, none, none⟩ 0 0 2000 ↔
      calculate_distance_feet ((1 : ℚ) : ℝ) ((1 : ℚ) : ℝ) 0 0 ≤ 2000 :=
  (claim_C6_amended ⟨true, 0, some 1, some 1, none, none, none⟩ 0 0 2000).2 1 1 rfl rfl rfl
    (by norm_num) (by norm_num)

/-! ## Claim C7: speed conversion and the stationary clamp boundary -/

lemma pyFloat_nil : pyFloat [] = none := by decide

/-- Claim C7 counterexample: at a knots value whose km/h conversion is
exactly 1.0 the code clamps the speed to 0.0, while the claim keeps every
converted speed of 1.0 km/h or above.  In exact rational arithmetic no
decimal field reaches this boundary, but the program's `float()` and float
multiplication round, and the parseable field `0.5399568034557235` (or
`0.53995680809021` in single precision) converts to exactly 1.0 km/h;
250/463 is the exact knots value with that conversion. -/
theorem claim_C7_counterexample :
    (250 / 463 : ℚ) * (1852 / 1000) = 1 ∧
    speed_of_knots (250 / 463) = 0 ∧ (0 : ℚ) ≠ 1 := by
  refine ⟨by norm_num, ?_, by norm_num⟩
  have h : ¬ ((250 / 463 : ℚ) * (1852 / 1000) > 1) := by norm_num
  simp only [speed_of_knots, if_neg h]

/-- Claim C7 (amended): in RMC decoding, a parsed knots value is converted
to km/h by multiplying by 1.852; every converted speed of 1.0 km/h or
below — including exactly 1.0 — is replaced by exactly 0.0, and every
converted speed strictly above 1.0 km/h is kept as converted.  This is the
code's strict `speed_kmh > 1.0` test; the claim's "1.0 km/h or above are
kept" fails at the reachable boundary. -/
theorem claim_C7_amended : ∀ (cs : List Char) (q : ℚ), pyFloat cs = some q →
    (q * (1852 / 1000) ≤ 1 → convert_speed cs = Except.ok 0) ∧
    (q * (1852 / 1000) > 1 → convert_speed cs = Except.ok (q * (1852 / 1000))) := by
  intro cs q h
  have hne : cs ≠ [] := by
    intro hcs
    rw [hcs, pyFloat_nil] at h
    exact Option.noConfusion h
  constructor
  · intro hle
    have hngt : ¬ (q * (1852 / 1000) > 1) := not_lt.mpr hle
    simp only [convert_speed, speed_of_knots, h, if_neg hne, if_neg hngt]
  · intro hgt
    simp only [convert_speed, speed_of_knots, h, if_neg hne, if_pos hgt]

/-- Claim C7 witness: the claimed sentence's speed field `022.4` knots
converts to 41.4848 km/h and is kept, and the field `0.5` knots converts
to 0.926 km/h and is clamped to exactly 0.0. -/
theorem claim_C7_witness :
    convert_speed ("022.4".data) = Except.ok (decValue false 22 4 1 * (1852 / 1000)) ∧
    decValue false 22 4 1 * (1852 / 1000) = (25928 / 625 : ℚ) ∧
    convert_speed ("0.5".data) = Except.ok 0 :=
  ⟨(claim_C7_amended "022.4".data (decValue false 22 4 1) rfl).2
      (by norm_num [decValue, pySign]),
   by norm_num [decValue, pySign],
   (claim_C7_amended "0.5".data (decValue false 0 5 1) rfl).1
      (by norm_num [decValue, pySign])⟩

/-! ## Claim C3: decoding the canonical RMC sentence -/

set_option maxRecDepth 4000 in
/-- Claim C3 counterexample: the exact sentence of the claim has only 12
comma-separated fields, and the RMC branch requires `len(parts) >= 13`
(src/main.py:290), so the whole read window yields the initial fix with
`gps_fix_valid = false` — not the claimed valid fix. -/
theorem claim_C3_counterexample :
    read_gps [UartEvent.line
      ("$GPRMC,123519,A,4807.038,N,01131.000,E,022.4,084.4,230394,003.1,W*6A").data]
      = Except.ok initGpsData ∧ initGpsData.gps_fix_valid = false := by
  exact ⟨rfl, rfl⟩

set_option maxRecDepth 4000 in
/-- Claim C3 (amended): with the required 13th field (the NMEA 2.3 mode
indicator, `...,W,A*6A`), the sentence decodes within the window to a
valid fix with latitude exactly 48.1173, longitude 691/60 ≈
11.5167, time `"12:35:19"`, and speed 41.4848 km/h = 22.4 knots × 1.852,
kept (> 1 km/h, hence nonzero). -/
theorem claim_C3_amended :
    read_gps [UartEvent.line
      ("$GPRMC,123519,A,4807.038,N,01131.000,E,022.4,084.4,230394,003.1,W,A*6A").data]
      = Except.ok ⟨true, 0, some (481173 / 10000 : ℚ), some (691 / 60 : ℚ),
          some (25928 / 625 : ℚ), some "12:35:19", none⟩ ∧
    (481173 / 10000 : ℚ) = 48 + 1173 / 10000 ∧
    |(691 / 60 : ℚ) - 115167 / 10000| < 1 / 10000 ∧
    (25928 / 625 : ℚ) = (224 / 10) * (1852 / 1000) ∧ (1 : ℚ) < 25928 / 625 := by
  refine ⟨?_, by norm_num, by rw [abs_sub_lt_iff]; constructor <;> norm_num,
    by norm_num, by norm_num⟩
  have H : read_gps [UartEvent.line
      ("$GPRMC,123519,A,4807.038,N,01131.000,E,022.4,084.4,230394,003.1,W,A*6A").data]
      = Except.ok ⟨true, 0,
          some (decValue false 48 0 0 + decValue false 7 38 3 / 60),
          some (decValue false 11 0 0 + decValue false 31 0 3 / 60),
          some (if decValue false 22 4 1 * (1852 / 1000) > 1
                then decValue false 22 4 1 * (1852 / 1000) else 0),
          some "12:35:19", none⟩ := rfl
  rw [H]
  have hgt : decValue false 22 4 1 * (1852 / 1000) > (1 : ℚ) := by
    norm_num [decValue, pySign]
  rw [if_pos hgt]
  have hlat : decValue false 48 0 0 + decValue false 7 38 3 / 60 = (481173 / 10000 : ℚ) := by
    norm_num [decValue, pySign]
  have hlon : decValue false 11 0 0 + decValue false 31 0 3 / 60 = (691 / 60 : ℚ) := by
    norm_num [decValue, pySign]
  have hspd : decValue false 22 4 1 * (1852 / 1000) = (25928 / 625 : ℚ) := by
    norm_num [decValue, pySign]
  rw [hlat, hlon, hspd]

/-! ## Claim C4: read_gps error containment -/

lemma leadsWith_cons_head {c : Char} {p s : List Char}
    (h : leadsWith (c :: p) s = true) : ∃ t, s = c :: t := by
  cases s with
  | nil => simp [leadsWith] at h
  | cons b bs =>
    simp only [leadsWith, Bool.and_eq_true, decide_eq_true_eq] at h
    exact ⟨bs, by rw [h.1]⟩

lemma startsDollar_of_lead (s p : List Char)
    (h : leadsWith ('$' :: p) s = true) : startsDollar s = true := by
  obtain ⟨t, rfl⟩ := leadsWith_cons_head h
  rfl

lemma lineParse_error_startsDollar (s : List Char) (e : String)
    (h : lineParse s = Except.error e) : startsDollar s = true := by
  unfold lineParse at h
  split at h
  · rename_i hpre
    rcases hpre with hp | hp
    · rw [show ("$GPRMC".data) = '$' :: "GPRMC".data from rfl] at hp
      exact startsDollar_of_lead s _ hp
    · rw [show ("$GNRMC".data) = '$' :: "GNRMC".data from rfl] at hp
      exact startsDollar_of_lead s _ hp
  · split at h
    · rename_i hpre
      rcases hpre with hp | hp
      · rw [show ("$GPGGA".data) = '$' :: "GPGGA".data from rfl] at hp
        exact startsDollar_of_lead s _ hp
      · rw [show ("$GNGGA".data) = '$' :: "GNGGA".data from rfl] at hp
        exact startsDollar_of_lead s _ hp
    · exact absurd h (by simp)

/-- Claim C4: `read_gps` never raises — for every event stream it returns
a fix; a line whose parse raises is skipped with the accumulated state
unchanged; a transport exception aborts the loop and the outer handler
converts it into a fix with `gps_fix_valid = false`, `satellites = 0` and
the diagnostic tag. -/
theorem claim_C4 :
    (∀ evs, ∃ d, read_gps evs = Except.ok d) ∧
    (∀ st s rest, (∃ e, lineParse s = Except.error e) →
      readGpsLoop st (UartEvent.line s :: rest) = readGpsLoop st rest) ∧
    (∀ st e rest, readGpsLoop st (UartEvent.hwError e :: rest) = Except.error e) ∧
    (∀ e rest, read_gps (UartEvent.hwError e :: rest) = Except.ok (errorFix e) ∧
      (errorFix e).gps_fix_valid = false ∧ (errorFix e).satellites = 0 ∧
      (errorFix e).error = some e) := by
  refine ⟨?_, ?_, ?_, ?_⟩
  · intro evs
    cases h : readGpsLoop ⟨initGpsData, false, false⟩ evs with
    | ok d => exact ⟨d, by simp [read_gps, tryE, h]⟩
    | error e => exact ⟨errorFix e, by simp [read_gps, tryE, h]⟩
  · intro st s rest he
    obtain ⟨e, he⟩ := he
    have hd := lineParse_error_startsDollar s e he
    simp only [readGpsLoop, hd, he, if_true]
  · intro st e rest
    rfl
  · intro e rest
    exact ⟨by simp [read_gps, tryE, readGpsLoop], rfl, rfl, rfl⟩

/-- Claim C4 witness: a 13-field RMC line whose speed field `abc` raises
`ValueError` is skipped, leaving the loop state exactly as if the line had
not arrived. -/
theorem claim_C4_witness :
    readGpsLoop ⟨initGpsData, false, false⟩
      [UartEvent.line
        ("$GPRMC,123519,A,4807.038,N,01131.000,E,abc,084.4,230394,003.1,W,A*6A").data] =
    readGpsLoop ⟨initGpsData, false, false⟩ [] :=
  claim_C4.2.1 _ _ [] ⟨"ValueError", by decide⟩

/-! ## Claim C1: the shutdown sequence always completes to sleep -/

/-- Claim C1: for every fix, home location and network environment —
including environments whose Wi-Fi association or FTP upload operations
raise — `handle_shutdown_sequence` returns normally (no exception
propagates) and its display trace contains the deep-sleep hand-off. -/
theorem claim_C1 : ∀ (g : GpsData) (homeLat homeLon radius : ℝ) (env : NetEnv),
    ∃ msgs, handle_shutdown_sequence g homeLat homeLon radius env = Except.ok msgs ∧
      "DEEP SLEEP" ∈ msgs := by
  intro g hl ho r env
  simp only [handle_shutdown_sequence]
  split
  · split
    · split
      · exact ⟨_, rfl, by decide⟩
      · exact ⟨_, rfl, by decide⟩
    · exact ⟨_, rfl, by decide⟩
  · exact ⟨_, rfl, by decide⟩

/-! ## Claim C9: SD unavailability and logging -/

/-- Claim C9 (amended): startup never aborts (display and SD failures are
both caught to booleans), a failing mount reports `sd_available = false` —
but `log_sensor_data` is still invoked on schedule and still attempts the
read and the write; with the filesystem unavailable every attempt fails,
the error is swallowed, nothing is written and `last_log_time` is not
advanced. -/
theorem claim_C9_amended :
    (∀ (displayInit : Except String Unit) (sd : SdEnv), ∃ b,
      main_startup displayInit sd = Except.ok b) ∧
    (∀ (sd : SdEnv) (e : String), sd.mount = Except.error e →
      init_sd_card sd = false) ∧
    (∀ (fs : FsEnv) (now lastLog : ℤ) (er ew : String),
      fs.readLogs = Except.error er → (∀ l, fs.writeLogs l = Except.error ew) →
      ticks_diff now lastLog ≥ LOG_INTERVAL →
      log_sensor_data fs now lastLog =
        ⟨lastLog, [FsOp.openReadAttempt, FsOp.openWriteAttempt], some ew, false⟩) := by
  refine ⟨fun d sd => ⟨init_sd_card sd, rfl⟩, ?_, ?_⟩
  · intro sd e h
    unfold init_sd_card
    rw [h]
  · intro fs now ll er ew hr hw hge
    simp only [log_sensor_data, if_neg (not_lt.mpr hge), hr, hw]

/-- Claim C9 counterexample: with the filesystem unavailable, a due log
tick still performs open attempts — the attempt trace is nonempty,
contradicting the claim that no log-append attempt is made. -/
theorem claim_C9_counterexample :
    (log_sensor_data ⟨Except.error "ENOENT", fun _ => Except.error "ENOENT"⟩ 60000 0).trace =
      [FsOp.openReadAttempt, FsOp.openWriteAttempt] ∧
    [FsOp.openReadAttempt, FsOp.openWriteAttempt] ≠ ([] : List FsOp) := by decide

/-- Claim C9 witness: concrete failing display/SD/filesystem
collaborators. -/
theorem claim_C9_witness :
    main_startup (Except.error "lcd fail")
      ⟨Except.error "ENOENT", Except.ok (), Except.ok ()⟩ = Except.ok false ∧
    log_sensor_data ⟨Except.error "ENOENT", fun _ => Except.error "ENOENT"⟩ 60000 0 =
      ⟨0, [FsOp.openReadAttempt, FsOp.openWriteAttempt], some "ENOENT", false⟩ := by
  constructor
  · have h := claim_C9_amended.2.1 ⟨Except.error "ENOENT", Except.ok (), Except.ok ()⟩
      "ENOENT" rfl
    show Except.ok (init_sd_card _) = Except.ok false
    rw [h]
  · exact claim_C9_amended.2.2 ⟨Except.error "ENOENT", fun _ => Except.error "ENOENT"⟩
      60000 0 "ENOENT" "ENOENT" rfl (fun _ => rfl) (by decide)
